import Mathlib

/-!
Shallow embedding of the Pyrofork client methods `set_chat_permissions` and
`send_reaction`, and of the `Reaction` result type, together with theorems
about the request records they build, the remote calls they issue, and the
values they return.  Each definition mirrors one Python function or class of
the repository; the remote side (peer resolution, invoke responses) is an
explicit environment, and the remote calls a method issues are returned as a
trace.
-/

namespace Pyrofork

/-- A resolved peer reference (opaque handle returned by `resolve_peer`). -/
abbrev Peer := Int

/-- A chat identifier: `chat_id: Union[int, str]`. -/
inductive ChatId where
  | int (i : Int)
  | str (s : String)
deriving DecidableEq

/-- Python exceptions this code can raise. -/
inductive PyError where
  | valueError (msg : String)
  | typeError (msg : String)
  | attributeError (msg : String)
deriving DecidableEq

/-- Modelled from the spec: `types.ChatPermissions` is not under `src/`; the
spec describes it as "a fixed collection of named boolean flags".  The 19
flags are the ones `set_chat_permissions` reads. -/
structure ChatPermissions where
  can_send_messages : Bool
  can_send_media_messages : Bool
  can_add_web_page_previews : Bool
  can_send_polls : Bool
  can_change_info : Bool
  can_invite_users : Bool
  can_pin_messages : Bool
  can_manage_topics : Bool
  can_send_audios : Bool
  can_send_docs : Bool
  can_send_games : Bool
  can_send_gifs : Bool
  can_send_inline : Bool
  can_send_photos : Bool
  can_send_plain : Bool
  can_send_roundvideos : Bool
  can_send_stickers : Bool
  can_send_videos : Bool
  can_send_voices : Bool
deriving DecidableEq

/-- `raw.types.ChatBannedRights`: the wire-format banned-rights record, with
`until_date` and the 19 restriction flags set by `set_chat_permissions`. -/
structure ChatBannedRights where
  until_date : Nat
  send_messages : Bool
  send_media : Bool
  embed_links : Bool
  send_polls : Bool
  change_info : Bool
  invite_users : Bool
  pin_messages : Bool
  manage_topics : Bool
  send_audios : Bool
  send_docs : Bool
  send_games : Bool
  send_gifs : Bool
  send_inline : Bool
  send_photos : Bool
  send_plain : Bool
  send_roundvideos : Bool
  send_stickers : Bool
  send_videos : Bool
  send_voices : Bool
deriving DecidableEq

/-- `raw.base.Reaction`: the wire-format reaction values used by the
message branch of `send_reaction` (built via `r.write`) and, for the empty
sentinel, by both branches. -/
inductive RawReaction where
  | reactionEmpty
  | reactionEmoji (emoticon : String)
  | reactionCustomEmoji (document_id : Int)
deriving DecidableEq

/-- Modelled from the spec: `types.ReactionType` is not under `src/`; the
spec describes a reaction descriptor as "a typed value representing one
emoji or custom-emoji reaction to apply". -/
inductive ReactionType where
  | emoji (emoji : String)
  | customEmoji (custom_emoji_id : Int)
deriving DecidableEq

/-- Modelled from the spec: the wire-format conversion `r.write(client)` of a
descriptor ("build one wire-format reaction value per descriptor"). -/
def ReactionType.write : ReactionType → RawReaction
  | .emoji e => .reactionEmoji e
  | .customEmoji i => .reactionCustomEmoji i

/-- An element of the `reaction` list field of a request.  The Python lists
are dynamically typed: the message branch fills the list with written raw
values, while the story branch passes the friendly descriptor objects
through unconverted; the empty-retraction sentinel `raw.types.ReactionEmpty()`
appears in both.  The sum type records which kind each element is. -/
inductive WireReactionItem where
  | raw (r : RawReaction)
  | descriptor (d : ReactionType)
deriving DecidableEq

/-- `raw.functions.messages.SendReaction`: the message-reaction request. -/
structure MessagesSendReactionReq where
  peer : Peer
  msg_id : Int
  reaction : List WireReactionItem
  big : Bool
  add_to_recent : Bool
deriving DecidableEq

/-- `raw.functions.stories.SendReaction`: the story-reaction request. -/
structure StoriesSendReactionReq where
  peer : Peer
  story_id : Int
  reaction : List WireReactionItem
  add_to_recent : Bool
deriving DecidableEq

/-- `raw.functions.messages.EditChatDefaultBannedRights`: the request sent by
`set_chat_permissions`. -/
structure EditChatDefaultBannedRightsReq where
  peer : Peer
  banned_rights : ChatBannedRights
deriving DecidableEq

/-- An element of the update list of the response to the message-reaction
invoke.  The scan in `send_reaction` only distinguishes
`raw.types.UpdateMessageReactions` (whose `reactions` payload it parses)
from every other update; the payload itself is opaque at this layer and is
abstracted as a number. -/
inductive Update where
  | updateMessageReactions (reactions : Nat)
  | otherUpdate (tag : Nat)
deriving DecidableEq

/-- Modelled from the spec: `types.MessageReactions` and its `_parse` are not
under `src/`; the spec calls the result "the parsed aggregate reaction
summary".  The summary is kept abstract as a wrapper around the raw
`reactions` payload it was parsed from. -/
structure MessageReactions where
  raw : Nat
deriving DecidableEq

/-- Modelled from the spec: `types.MessageReactions._parse(self, i.reactions)`,
abstracted as the wrapping of the raw payload. -/
def MessageReactions.parse (p : Nat) : MessageReactions := ⟨p⟩

/-- One remote call issued through the client (`resolve_peer` or `invoke`). -/
inductive RemoteCall where
  | resolvePeer (chat_id : ChatId)
  | invokeMessagesSendReaction (req : MessagesSendReactionReq)
  | invokeStoriesSendReaction (req : StoriesSendReactionReq)
  | invokeEditChatDefaultBannedRights (req : EditChatDefaultBannedRightsReq)
deriving DecidableEq

/-- The external client capabilities the methods call into: peer resolution
and the responses the remote side gives to each invoke.  The story-reaction
response is present in the environment but, as in the source, never read. -/
structure Env where
  resolve_peer : ChatId → Peer
  messagesSendReactionResponse : MessagesSendReactionReq → List Update
  storiesSendReactionResponse : StoriesSendReactionReq → List Update

/-- The request built and sent by `set_chat_permissions`: peer resolved from
the chat id, and a `ChatBannedRights` with `until_date=0` and every flag the
boolean negation of the corresponding permission flag. -/
def set_chat_permissions_request (env : Env) (chat_id : ChatId)
    (permissions : ChatPermissions) : EditChatDefaultBannedRightsReq :=
  { peer := env.resolve_peer chat_id
    banned_rights :=
      { until_date := 0
        send_messages := !permissions.can_send_messages
        send_media := !permissions.can_send_media_messages
        embed_links := !permissions.can_add_web_page_previews
        send_polls := !permissions.can_send_polls
        change_info := !permissions.can_change_info
        invite_users := !permissions.can_invite_users
        pin_messages := !permissions.can_pin_messages
        manage_topics := !permissions.can_manage_topics
        send_audios := !permissions.can_send_audios
        send_docs := !permissions.can_send_docs
        send_games := !permissions.can_send_games
        send_gifs := !permissions.can_send_gifs
        send_inline := !permissions.can_send_inline
        send_photos := !permissions.can_send_photos
        send_plain := !permissions.can_send_plain
        send_roundvideos := !permissions.can_send_roundvideos
        send_stickers := !permissions.can_send_stickers
        send_videos := !permissions.can_send_videos
        send_voices := !permissions.can_send_voices } }

/-- The `raw.functions.messages.SendReaction` request built by the message
branch of `send_reaction`: written descriptors, or the single
`ReactionEmpty` sentinel when the descriptor list is empty (the Python
truthiness test `if reaction`). -/
def mkMessagesSendReaction (env : Env) (chat_id : ChatId) (message_id : Int)
    (reaction : List ReactionType) (is_big add_to_recent : Bool) :
    MessagesSendReactionReq :=
  { peer := env.resolve_peer chat_id
    msg_id := message_id
    reaction :=
      if reaction.isEmpty then [.raw .reactionEmpty]
      else reaction.map (fun r => .raw r.write)
    big := is_big
    add_to_recent := add_to_recent }

/-- The `raw.functions.stories.SendReaction` request built by the story
branch of `send_reaction`: the descriptor list passed through unconverted,
or the single `ReactionEmpty` sentinel when it is empty. -/
def mkStoriesSendReaction (env : Env) (chat_id : ChatId) (story_id : Int)
    (reaction : List ReactionType) (add_to_recent : Bool) :
    StoriesSendReactionReq :=
  { peer := env.resolve_peer chat_id
    story_id := story_id
    reaction :=
      if reaction.isEmpty then [.raw .reactionEmpty]
      else reaction.map (fun r => .descriptor r)
    add_to_recent := add_to_recent }

/-- The `for i in r.updates` loop of the message branch: return the parsed
`reactions` payload of the first `UpdateMessageReactions`, skipping every
other update; falling off the loop yields nothing. -/
def scanUpdates : List Update → Option MessageReactions
  | [] => none
  | .updateMessageReactions p :: _ => some (MessageReactions.parse p)
  | .otherUpdate _ :: rest => scanUpdates rest

/-- The three values `send_reaction` can return on the non-raising paths:
the parsed aggregate summary, the implicit `None` when the scan finds no
`UpdateMessageReactions`, and the unconditional `True` of the story branch. -/
inductive SendReactionReturn where
  | parsed (mr : MessageReactions)
  | pyNone
  | pyTrue
deriving DecidableEq

/-- `SendReaction.send_reaction`: dispatch on `message_id is not None`, then
`story_id is not None`, else raise `ValueError`.  The first component is the
trace of remote calls issued, in order; the second the outcome. -/
def send_reaction (env : Env) (chat_id : ChatId)
    (message_id story_id : Option Int) (reaction : List ReactionType)
    (is_big add_to_recent : Bool) :
    List RemoteCall × Except PyError SendReactionReturn :=
  match message_id with
  | some mid =>
      let req := mkMessagesSendReaction env chat_id mid reaction is_big add_to_recent
      let ret :=
        match scanUpdates (env.messagesSendReactionResponse req) with
        | some mr => SendReactionReturn.parsed mr
        | none => SendReactionReturn.pyNone
      ([.resolvePeer chat_id, .invokeMessagesSendReaction req], .ok ret)
  | none =>
      match story_id with
      | some sid =>
          let req := mkStoriesSendReaction env chat_id sid reaction add_to_recent
          ([.resolvePeer chat_id, .invokeStoriesSendReaction req], .ok .pyTrue)
      | none =>
          ([], .error (.valueError "You need to pass one of message_id!"))

/-- The dynamically typed first argument of `Reaction._parse`: the
`isinstance` chain distinguishes `ReactionEmoji`, `ReactionCustomEmoji` and
an echoed `messages.SendReaction` request; any other shape (such as
`ReactionEmpty`) falls through. -/
inductive ParseInput where
  | reactionEmoji (emoticon : String)
  | reactionCustomEmoji (document_id : Int)
  | reactionEmpty
  | sendReactionReq (req : MessagesSendReactionReq)
deriving DecidableEq

/-- `types.Reaction`: fields and defaults of `Reaction.__init__` (every
field defaults to `None` except `is_big`, which defaults to `False`). -/
structure Reaction where
  emoji : Option String := none
  custom_emoji_id : Option Int := none
  count : Option Int := none
  chosen_order : Option Int := none
  chat_id : Option Int := none
  msg_id : Option Int := none
  is_big : Option Bool := some false
  reaction : Option MessagesSendReactionReq := none
deriving DecidableEq

/-- `Reaction._parse`: dispatch on the shape of the raw value; the
`isinstance` chain has no default branch, so an unmatched shape produces
`None`. -/
def Reaction.parse (input : ParseInput) (chat_id msg_id : Option Int)
    (is_big : Option Bool) : Option Reaction :=
  match input with
  | .reactionEmoji emoticon => some { emoji := some emoticon }
  | .reactionCustomEmoji document_id =>
      some { custom_emoji_id := some document_id }
  | .sendReactionReq req =>
      some { chat_id := chat_id, msg_id := msg_id, is_big := is_big,
             reaction := some req }
  | .reactionEmpty => none

/-- `raw.base.ReactionCount`: the raw reaction-count value `_parse_count`
reads (`reaction`, `count`, optional `chosen_order`). -/
structure ReactionCount where
  reaction : ParseInput
  count : Int
  chosen_order : Option Int
deriving DecidableEq

/-- Required positional parameters of `Reaction._parse` per its definition:
`client`, `reaction`, `chat_id`, `msg_id`, `is_big` — none has a default. -/
def parseRequiredParams : Nat := 5

/-- Positional arguments passed at the call site inside `_parse_count`:
`Reaction._parse(client, reaction_count.reaction)`. -/
def parseCountPassedArgs : Nat := 2

/-- `Reaction._parse_count`.  Its call to `Reaction._parse` supplies 2 of
the 5 required positional parameters, so Python raises `TypeError` before
the body of `_parse` runs; the embedding checks the two arities explicitly.
The else branch transcribes the rest of the body (attach `count` and
`chosen_order` to the parsed reaction; reading `.count` on a `None` result
would raise `AttributeError`), which is unreachable at the source arities. -/
def Reaction.parse_count (rc : ReactionCount) : Except PyError Reaction :=
  if parseCountPassedArgs < parseRequiredParams then
    .error (.typeError
      "Reaction._parse() missing 3 required positional arguments")
  else
    match Reaction.parse rc.reaction none none none with
    | some r => .ok { r with count := some rc.count,
                             chosen_order := rc.chosen_order }
    | none => .error (.attributeError
        "NoneType object has no attribute count")

/-- A concrete environment for evaluating the methods on closed inputs:
every chat resolves to peer 7 and every response is empty. -/
def env0 : Env :=
  { resolve_peer := fun _ => 7
    messagesSendReactionResponse := fun _ => []
    storiesSendReactionResponse := fun _ => [] }

/-- A concrete echoed `messages.SendReaction` request, for evaluating the
echoed-request branch of `Reaction._parse` on a closed input. -/
def req0 : MessagesSendReactionReq :=
  { peer := 7, msg_id := 1, reaction := [.raw (.reactionEmoji "🔥")],
    big := false, add_to_recent := true }

/-- The recursive update scan agrees with taking the first
`UpdateMessageReactions` payload of the list and parsing it. -/
theorem scanUpdates_eq_findSome (us : List Update) :
    scanUpdates us =
      (us.findSome? fun u =>
        match u with
        | Update.updateMessageReactions p => some p
        | Update.otherUpdate _ => none).map MessageReactions.parse := by
  induction us with
  | nil => rfl
  | cons u rest ih => cases u <;> simp [scanUpdates, List.findSome?_cons, ih]

/-- C1: for every permission set passed to `set_chat_permissions`, the
banned-rights record built and sent has, for each of the 19 named flags, the
value equal to the boolean negation of the corresponding permission flag,
with no flag omitted. -/
theorem set_chat_permissions_complements (env : Env) (chat_id : ChatId)
    (P : ChatPermissions) :
    ((set_chat_permissions_request env chat_id P).banned_rights.send_messages
        = !P.can_send_messages) ∧
    ((set_chat_permissions_request env chat_id P).banned_rights.send_media
        = !P.can_send_media_messages) ∧
    ((set_chat_permissions_request env chat_id P).banned_rights.embed_links
        = !P.can_add_web_page_previews) ∧
    ((set_chat_permissions_request env chat_id P).banned_rights.send_polls
        = !P.can_send_polls) ∧
    ((set_chat_permissions_request env chat_id P).banned_rights.change_info
        = !P.can_change_info) ∧
    ((set_chat_permissions_request env chat_id P).banned_rights.invite_users
        = !P.can_invite_users) ∧
    ((set_chat_permissions_request env chat_id P).banned_rights.pin_messages
        = !P.can_pin_messages) ∧
    ((set_chat_permissions_request env chat_id P).banned_rights.manage_topics
        = !P.can_manage_topics) ∧
    ((set_chat_permissions_request env chat_id P).banned_rights.send_audios
        = !P.can_send_audios) ∧
    ((set_chat_permissions_request env chat_id P).banned_rights.send_docs
        = !P.can_send_docs) ∧
    ((set_chat_permissions_request env chat_id P).banned_rights.send_games
        = !P.can_send_games) ∧
    ((set_chat_permissions_request env chat_id P).banned_rights.send_gifs
        = !P.can_send_gifs) ∧
    ((set_chat_permissions_request env chat_id P).banned_rights.send_inline
        = !P.can_send_inline) ∧
    ((set_chat_permissions_request env chat_id P).banned_rights.send_photos
        = !P.can_send_photos) ∧
    ((set_chat_permissions_request env chat_id P).banned_rights.send_plain
        = !P.can_send_plain) ∧
    ((set_chat_permissions_request env chat_id P).banned_rights.send_roundvideos
        = !P.can_send_roundvideos) ∧
    ((set_chat_permissions_request env chat_id P).banned_rights.send_stickers
        = !P.can_send_stickers) ∧
    ((set_chat_permissions_request env chat_id P).banned_rights.send_videos
        = !P.can_send_videos) ∧
    ((set_chat_permissions_request env chat_id P).banned_rights.send_voices
        = !P.can_send_voices) :=
  ⟨rfl, rfl, rfl, rfl, rfl, rfl, rfl, rfl, rfl, rfl, rfl, rfl, rfl, rfl,
   rfl, rfl, rfl, rfl, rfl⟩

/-- C10: for every chat identifier and every permission set, the
banned-rights record sent by `set_chat_permissions` has `until_date = 0`; no
parameter of the method can produce a time-bounded restriction. -/
theorem set_chat_permissions_until_date_zero (env : Env) (chat_id : ChatId)
    (P : ChatPermissions) :
    (set_chat_permissions_request env chat_id P).banned_rights.until_date
      = 0 := rfl

/-- C2: when both `message_id` and `story_id` are unset, `send_reaction`
raises `ValueError` immediately and issues no remote call (neither an invoke
nor a `resolve_peer`): the call trace is empty. -/
theorem send_reaction_no_target_value_error (env : Env) (chat_id : ChatId)
    (reaction : List ReactionType) (is_big add_to_recent : Bool) :
    send_reaction env chat_id none none reaction is_big add_to_recent =
      ([], .error (.valueError "You need to pass one of message_id!")) := rfl

/-- C3 counterexample: with both `message_id` and `story_id` supplied
(`message_id = 1`, `story_id = 2`), `send_reaction` does not signal an
invalid-argument error: it runs the message branch and returns `None`. -/
theorem send_reaction_both_ids_no_error :
    (send_reaction env0 (.int 0) (some 1) (some 2) [] false true).2 =
      Except.ok SendReactionReturn.pyNone := rfl

/-- C3 amended: `send_reaction` signals the invalid-argument `ValueError` if
and only if both `message_id` and `story_id` are unset; in particular, when
both are supplied no error is raised (the `message_id` branch takes
precedence). -/
theorem send_reaction_error_iff_both_unset (env : Env) (chat_id : ChatId)
    (message_id story_id : Option Int) (reaction : List ReactionType)
    (is_big add_to_recent : Bool) :
    ((send_reaction env chat_id message_id story_id reaction is_big
        add_to_recent).2 =
      Except.error (PyError.valueError "You need to pass one of message_id!"))
      ↔ (message_id = none ∧ story_id = none) := by
  cases message_id <;> cases story_id <;> simp [send_reaction]

/-- C4: with an empty reaction descriptor list, the request sent carries a
reaction list that is exactly the single `ReactionEmpty` sentinel, never the
empty list, in both the message-target branch and the story-target branch. -/
theorem send_reaction_retraction_sentinel (env : Env) (chat_id : ChatId)
    (mid sid : Int) (is_big add_to_recent : Bool) :
    (∃ req, (send_reaction env chat_id (some mid) none [] is_big
          add_to_recent).1 =
        [RemoteCall.resolvePeer chat_id,
         RemoteCall.invokeMessagesSendReaction req] ∧
      req.reaction = [WireReactionItem.raw RawReaction.reactionEmpty]) ∧
    (∃ req, (send_reaction env chat_id none (some sid) [] is_big
          add_to_recent).1 =
        [RemoteCall.resolvePeer chat_id,
         RemoteCall.invokeStoriesSendReaction req] ∧
      req.reaction = [WireReactionItem.raw RawReaction.reactionEmpty]) :=
  ⟨⟨_, rfl, rfl⟩, ⟨_, rfl, rfl⟩⟩

/-- C5: for every raw reaction-count value, `Reaction._parse_count` raises
`TypeError`: its call to `Reaction._parse` supplies only 2 of the 5 required
positional parameters, so it never returns the Reaction record with `count`
and `chosen_order` attached. -/
theorem parse_count_raises_type_error (rc : ReactionCount) :
    Reaction.parse_count rc =
      Except.error (PyError.typeError
        "Reaction._parse() missing 3 required positional arguments") := rfl

/-- C6: `Reaction._parse` on a plain-emoji raw value returns a record with
`emoji` equal to the emoticon and `custom_emoji_id = None`; on a
custom-emoji raw value it returns `custom_emoji_id` equal to the id and
`emoji = None`. -/
theorem parse_emoji_and_custom_shapes (chat_id msg_id : Option Int)
    (is_big : Option Bool) :
    (∀ emoticon, ∃ r,
      Reaction.parse (.reactionEmoji emoticon) chat_id msg_id is_big
          = some r ∧
        r.emoji = some emoticon ∧ r.custom_emoji_id = none) ∧
    (∀ document_id, ∃ r,
      Reaction.parse (.reactionCustomEmoji document_id) chat_id msg_id is_big
          = some r ∧
        r.custom_emoji_id = some document_id ∧ r.emoji = none) :=
  ⟨fun _ => ⟨_, rfl, rfl, rfl⟩, fun _ => ⟨_, rfl, rfl, rfl⟩⟩

/-- C7 counterexample: on an echoed `messages.SendReaction` input the parser
produces a record (the map over the option evaluates to `some`) in which
both `emoji` and `custom_emoji_id` are `None`: not exactly one populated. -/
theorem parse_send_req_neither_field :
    (Reaction.parse (.sendReactionReq req0) (some 1) (some 2)
        (some false)).map Reaction.emoji = some none ∧
    (Reaction.parse (.sendReactionReq req0) (some 1) (some 2)
        (some false)).map Reaction.custom_emoji_id = some none :=
  ⟨rfl, rfl⟩

/-- C7 amended: a record parsed from a plain-emoji or custom-emoji raw value
has exactly one of `emoji` and `custom_emoji_id` populated; a record parsed
from an echoed send-request has neither populated; an unmatched shape
(`ReactionEmpty`) produces no record. -/
theorem parse_exclusive_fields_by_shape (chat_id msg_id : Option Int)
    (is_big : Option Bool) :
    (∀ emoticon,
      (Reaction.parse (.reactionEmoji emoticon) chat_id msg_id is_big).map
          (fun r => xor r.emoji.isSome r.custom_emoji_id.isSome)
        = some true) ∧
    (∀ document_id,
      (Reaction.parse (.reactionCustomEmoji document_id) chat_id msg_id
          is_big).map
          (fun r => xor r.emoji.isSome r.custom_emoji_id.isSome)
        = some true) ∧
    (∀ req,
      (Reaction.parse (.sendReactionReq req) chat_id msg_id is_big).map
          (fun r => r.emoji.isNone && r.custom_emoji_id.isNone)
        = some true) ∧
    Reaction.parse .reactionEmpty chat_id msg_id is_big = none :=
  ⟨fun _ => rfl, fun _ => rfl, fun _ => rfl, rfl⟩

/-- C8: targeting a message, `send_reaction` returns the parsed aggregate
summary of the first `UpdateMessageReactions` found in the response's update
list, and returns `None` (no error) when the list contains no such update. -/
theorem send_reaction_message_branch_result (env : Env) (chat_id : ChatId)
    (mid : Int) (reaction : List ReactionType) (is_big add_to_recent : Bool) :
    (send_reaction env chat_id (some mid) none reaction is_big
        add_to_recent).2 =
      Except.ok
        (match (env.messagesSendReactionResponse
            (mkMessagesSendReaction env chat_id mid reaction is_big
              add_to_recent)).findSome?
            (fun u =>
              match u with
              | Update.updateMessageReactions p => some p
              | Update.otherUpdate _ => none) with
        | some p => SendReactionReturn.parsed (MessageReactions.parse p)
        | none => SendReactionReturn.pyNone) := by
  show Except.ok _ = _
  rw [scanUpdates_eq_findSome]
  cases (env.messagesSendReactionResponse
      (mkMessagesSendReaction env chat_id mid reaction is_big
        add_to_recent)).findSome?
      (fun u =>
        match u with
        | Update.updateMessageReactions p => some p
        | Update.otherUpdate _ => none) <;> rfl

/-- C9: targeting a story (`story_id` supplied, `message_id` unset),
`send_reaction` returns the unconditional success indicator `True`,
whatever response the environment gives. -/
theorem send_reaction_story_returns_true (env : Env) (chat_id : ChatId)
    (sid : Int) (reaction : List ReactionType) (is_big add_to_recent : Bool) :
    (send_reaction env chat_id none (some sid) reaction is_big
        add_to_recent).2 = Except.ok SendReactionReturn.pyTrue := rfl

end Pyrofork
